import Mathlib

/-!
Verification of the sales analytics pipeline (src/Sales_Analytics_Pipeline.py).

The pipeline is shallowly embedded: pandas DataFrames become lists of records,
float currency amounts become rationals, `pd.Timestamp` becomes an explicit
calendar structure, and every fallible pandas operation (`pd.to_datetime`,
`Series.idxmax`, `Series.mean` on an empty series) is modelled with `Option`,
where `none` stands for the raised exception / NaN.  `groupby(sort=True)`
(the pandas default used throughout the source) is modelled by sorting the
deduplicated key column; `sort_values` is modelled as a stable sort.
-/

namespace SalesPipeline

/-! ### Rounding, mirroring `round(_, 2)` / `.round(2)` (numpy half-to-even) -/

/-- Round a rational to the nearest integer, ties going to the even integer
(the rounding mode used by numpy/pandas `round`). -/
def roundHalfEven (q : ℚ) : ℤ :=
  let f : ℤ := ⌊q⌋
  let r : ℚ := q - f
  if r < 1/2 then f
  else if 1/2 < r then f + 1
  else if 2 ∣ f then f else f + 1

/-- `x.round(2)`: round to two decimal places. -/
def round2 (q : ℚ) : ℚ := (roundHalfEven (q * 100) : ℚ) / 100

/-! ### Timestamps (`pd.Timestamp`), parsing (`pd.to_datetime`) and weekday names -/

/-- A parsed timestamp, the embedding of a `pd.Timestamp` value. -/
structure DateTime where
  year : Nat
  month : Nat
  day : Nat
  hour : Nat
  minute : Nat
  second : Nat
deriving DecidableEq

/-- Chronological (lexicographic) comparison of timestamps, as a boolean. -/
def DateTime.leb (a b : DateTime) : Bool :=
  if a.year ≠ b.year then a.year < b.year
  else if a.month ≠ b.month then a.month < b.month
  else if a.day ≠ b.day then a.day < b.day
  else if a.hour ≠ b.hour then a.hour < b.hour
  else if a.minute ≠ b.minute then a.minute < b.minute
  else a.second ≤ b.second

/-- The `transaction_date` column: the generator writes strings
("%Y-%m-%d %H:%M:%S"); line 137 of the source overwrites the column with
parsed timestamps, so a cell is either still a string or already parsed. -/
inductive DateField where
  | str : String → DateField
  | ts : DateTime → DateField
deriving DecidableEq

/-- Is the cell a parsed timestamp? -/
def DateField.isTs : DateField → Bool
  | .str _ => false
  | .ts _ => true

/-- Split a character list on a separator character. -/
def splitOnChar (c : Char) : List Char → List (List Char)
  | [] => [[]]
  | x :: xs =>
    let r := splitOnChar c xs
    if x = c then [] :: r
    else
      match r with
      | [] => [[x]]
      | y :: ys => (x :: y) :: ys

/-- Parse a non-empty list of decimal digits. -/
def digitsToNat : List Char → Option Nat
  | [] => none
  | l =>
    l.foldl
      (fun acc c =>
        acc.bind fun n => if c.isDigit then some (n * 10 + (c.toNat - 48)) else none)
      (some 0)

/-- Parse "%Y-%m-%d %H:%M:%S", validating calendar field ranges; `none`
models the exception raised by `pd.to_datetime` on unparseable input
(day validity is approximated by `day ≤ 31` for every month). -/
def parseDate (s : String) : Option DateTime :=
  match splitOnChar ' ' s.data with
  | [d, t] =>
    match splitOnChar '-' d, splitOnChar ':' t with
    | [ys, ms, ds], [hs, mis, ses] =>
      (digitsToNat ys).bind fun y =>
      (digitsToNat ms).bind fun mo =>
      (digitsToNat ds).bind fun da =>
      (digitsToNat hs).bind fun h =>
      (digitsToNat mis).bind fun mi =>
      (digitsToNat ses).bind fun se =>
        if 1 ≤ y ∧ 1 ≤ mo ∧ mo ≤ 12 ∧ 1 ≤ da ∧ da ≤ 31 ∧ h ≤ 23 ∧ mi ≤ 59 ∧ se ≤ 59
        then some ⟨y, mo, da, h, mi, se⟩ else none
    | _, _ => none
  | _ => none

/-- `pd.to_datetime` on one cell: parse a string, pass a timestamp through. -/
def toDatetimeCell : DateField → Option DateField
  | .str s => (parseDate s).map .ts
  | .ts d => some (.ts d)

/-- Weekday index (0 = Sunday) of a Gregorian date, Sakamoto's method. -/
def dayOfWeekIdx (y m d : Nat) : Nat :=
  let t := [0, 3, 2, 5, 0, 3, 5, 1, 4, 6, 2, 4]
  let y := if m < 3 then y - 1 else y
  (y + y / 4 + y / 400 + t.getD (m - 1) 0 + d - y / 100) % 7

/-- `dt.day_name()`: full English weekday name. -/
def dayName (dt : DateTime) : String :=
  ["Sunday", "Monday", "Tuesday", "Wednesday", "Thursday", "Friday",
    "Saturday"].getD (dayOfWeekIdx dt.year dt.month dt.day) ""

/-! ### Records -/

/-- A raw transaction row (the schema produced by the generator).
`payment_method` is the nullable column of the model: the schema forces
every other column to be populated, and a missing value anywhere is what
the validator's `isnull` check counts. -/
structure RawTxn where
  transaction_id : String
  product_id : String
  product_name : String
  category : String
  quantity : Nat
  unit_price : ℚ
  total_amount : ℚ
  transaction_date : DateField
  customer_id : String
  sales_channel : String
  payment_method : Option String
  region : String
deriving DecidableEq

/-- A row of `df_transformed`: the raw columns plus the derived features of
STEP 3, with `is_weekend : Option Bool` recording whether the column added
in place at line 237 (STEP 5) is present yet (`none` = column absent). -/
structure EnrichedTxn where
  transaction_id : String
  product_id : String
  product_name : String
  category : String
  quantity : Nat
  unit_price : ℚ
  total_amount : ℚ
  transaction_date : DateTime
  customer_id : String
  sales_channel : String
  payment_method : Option String
  region : String
  year : Nat
  month : Nat
  day : Nat
  hour : Nat
  day_of_week : String
  revenue_category : Option String
  is_weekend : Option Bool
deriving DecidableEq

/-! ### STEP 2: data quality validation (lines 94-120) -/

/-- The quality report dictionary. The health score is an integer that the
source only ever decrements from 100; it is deliberately not clamped. -/
structure QualityReport where
  total_records : Nat
  issues_found : List String
  data_health_score : ℤ
deriving DecidableEq

/-- `df.isnull().sum().sum()`: total number of missing cells
(`payment_method` being the nullable column of the model). -/
def countMissing (df : List RawTxn) : Nat :=
  (df.filter (fun r => r.payment_method.isNone)).length

/-- `df['transaction_id'].duplicated().sum()`: rows marked as duplicates of
an earlier row, i.e. total rows minus distinct ids. -/
def dupIdCount (df : List RawTxn) : Nat :=
  (df.map (fun r => r.transaction_id)).length
    - (df.map (fun r => r.transaction_id)).dedup.length

/-- `(df['unit_price'] <= 0).sum()`. -/
def nonposPriceCount (df : List RawTxn) : Nat :=
  (df.filter (fun r => decide (r.unit_price ≤ 0))).length

/-- `validate_data_quality` (lines 94-120): three independent checks, each
appending one issue string and subtracting a fixed penalty when triggered. -/
def validate_data_quality (df : List RawTxn) : QualityReport :=
  let q0 : QualityReport := ⟨df.length, [], 100⟩
  let missing := countMissing df
  let q1 := if missing > 0 then
      { q0 with issues_found := q0.issues_found ++ ["Missing values: " ++ toString missing],
                data_health_score := q0.data_health_score - 10 }
    else q0
  let dups := dupIdCount df
  let q2 := if dups > 0 then
      { q1 with issues_found := q1.issues_found ++ ["Duplicate IDs: " ++ toString dups],
                data_health_score := q1.data_health_score - 15 }
    else q1
  let neg := nonposPriceCount df
  if neg > 0 then
    { q2 with issues_found := q2.issues_found ++ ["Invalid prices: " ++ toString neg],
              data_health_score := q2.data_health_score - 20 }
  else q2

/-! ### STEP 3: ETL transformations (lines 136-172) -/

/-- `pd.cut(x, bins, labels)` with right-inclusive bins (the pandas default):
the cell falls in the first interval `(bins i, bins (i+1)]` containing it;
a value outside every bin (here: `x ≤ 0`) becomes NaN, modelled `none`.
`float('inf')` is modelled by `⊤ : WithTop ℚ`. -/
def pdCut (x : ℚ) : List (WithTop ℚ) → List String → Option String
  | a :: b :: rest, lab :: labs =>
    if a < (x : WithTop ℚ) ∧ (x : WithTop ℚ) ≤ b then some lab
    else pdCut x (b :: rest) labs
  | _, _ => none

/-- Lines 148-152: `revenue_category` bucketing of `total_amount`. -/
def revenue_category (x : ℚ) : Option String :=
  pdCut x [((0 : ℚ) : WithTop ℚ), ((100 : ℚ) : WithTop ℚ), ((500 : ℚ) : WithTop ℚ),
    ((1000 : ℚ) : WithTop ℚ), ⊤] ["Low", "Medium", "High", "Premium"]

/-- Lines 164-170: `categorize_customer`, a pure function of the rolled-up
`total_spent` and `order_count` of one customer row. -/
def categorize_customer (total_spent : ℚ) (order_count : Nat) : String :=
  if total_spent > 2000 ∧ order_count > 10 then "VIP"
  else if total_spent > 1000 ∨ order_count > 5 then "Regular"
  else "New"

/-- First-match-wins rule list (used to restate the spec's segment table). -/
def firstMatch : List (Bool × String) → String → String
  | [], d => d
  | (c, lab) :: rest, d => if c then lab else firstMatch rest d

/-- The spec's segment assignment, transcribed from its priority list. -/
def segment_spec (ts : ℚ) (oc : Nat) : String :=
  firstMatch
    [(decide (ts > 2000) && decide (oc > 10), "VIP"),
     (decide (ts > 1000) || decide (oc > 5), "Regular")] "New"

/-! ### Grouping (`df.groupby(key)`, pandas default `sort=True`) -/

/-- `df.groupby(keyOf)` with the pandas default `sort=True`: one group per
distinct key, groups listed in sorted key order, each group keeping the
row order of the input. -/
def pdGroupBy {α κ : Type} [DecidableEq κ] (r : κ → κ → Prop) (dec : DecidableRel r)
    (keyOf : α → κ) (l : List α) : List (κ × List α) :=
  (@List.insertionSort κ r dec ((l.map keyOf).dedup)).map
    (fun k => (k, l.filter (fun x => decide (keyOf x = k))))

/-- Decidability of `≤` on `String`, passed to `pdGroupBy` explicitly. -/
abbrev strLeDec : DecidableRel ((· ≤ ·) : String → String → Prop) :=
  fun _ _ => inferInstance

/-- Decidability of `≤` on `Nat`, passed to `pdGroupBy` explicitly. -/
abbrev natLeDec : DecidableRel ((· ≤ ·) : Nat → Nat → Prop) :=
  fun _ _ => inferInstance

/-- Lexicographic order on `(year, month)` group keys. -/
def pairLe (a b : Nat × Nat) : Prop := a.1 < b.1 ∨ (a.1 = b.1 ∧ a.2 ≤ b.2)

/-- Decidability of `pairLe`. -/
abbrev pairLeDec : DecidableRel pairLe := fun a b => by unfold pairLe; infer_instance

/-- Lexicographic order on `(year, month, day)` group keys. -/
def tripleLe (a b : Nat × Nat × Nat) : Prop :=
  a.1 < b.1 ∨ (a.1 = b.1 ∧ pairLe a.2 b.2)

/-- Decidability of `tripleLe`. -/
abbrev tripleLeDec : DecidableRel tripleLe := fun a b => by
  unfold tripleLe pairLe; infer_instance

/-- Sort rank of an `is_weekend` cell (pandas sorts `False` before `True`). -/
def obRank : Option Bool → Nat
  | none => 0
  | some false => 1
  | some true => 2

/-- Order on `is_weekend` group keys. -/
def obLe (a b : Option Bool) : Prop := obRank a ≤ obRank b

/-- Decidability of `obLe`. -/
abbrev obLeDec : DecidableRel obLe := fun a b => Nat.decLe (obRank a) (obRank b)

/-! ### STEP 3 continued: customer aggregation (lines 155-172) -/

/-- One row of `customer_stats`. -/
structure CustomerAgg where
  customer_id : String
  total_spent : ℚ
  order_count : Nat
  last_purchase : Option DateTime
  avg_order_value : ℚ
  segment : String
deriving DecidableEq

/-- `Series.max` over a possibly empty series. -/
def seriesMaxBy {α : Type} (le : α → α → Bool) : List α → Option α
  | [] => none
  | x :: xs => some (xs.foldl (fun a b => if le a b then b else a) x)

/-- Build one `customer_stats` row from a group (lines 155-172):
`total_spent` and the derived `avg_order_value` are rounded to 2 decimals
by the source's `.round(2)` calls; the segment uses the rounded total. -/
def mkCustomerAgg (k : String) (g : List EnrichedTxn) : CustomerAgg :=
  let ts := round2 ((g.map (fun e => e.total_amount)).sum)
  let oc := g.length
  { customer_id := k, total_spent := ts, order_count := oc,
    last_purchase := seriesMaxBy DateTime.leb (g.map (fun e => e.transaction_date)),
    avg_order_value := round2 (ts / (oc : ℚ)),
    segment := categorize_customer ts oc }

/-- Lines 155-172: `customer_stats = df_transformed.groupby('customer_id')...`. -/
def customer_stats (df : List EnrichedTxn) : List CustomerAgg :=
  (pdGroupBy (· ≤ ·) strLeDec (fun e => e.customer_id) df).map
    (fun kg => mkCustomerAgg kg.1 kg.2)

/-! ### STEP 4-6: KPIs and summary tables (lines 189-293) -/

/-- Line 189: `total_revenue = df_transformed['total_amount'].sum()`. -/
def total_revenue (df : List EnrichedTxn) : ℚ :=
  (df.map (fun e => e.total_amount)).sum

/-- Line 190: `total_transactions = len(df_transformed)`. -/
def total_transactions (df : List EnrichedTxn) : Nat := df.length

/-- Line 191: `avg_order_value = df_transformed['total_amount'].mean()`;
`mean` of an empty series is NaN, modelled `none`. -/
def avg_order_value_kpi (df : List EnrichedTxn) : Option ℚ :=
  if df.length = 0 then none else some (total_revenue df / (df.length : ℚ))

/-- Line 192: `unique_customers = df_transformed['customer_id'].nunique()`. -/
def unique_customers (df : List EnrichedTxn) : Nat :=
  (df.map (fun e => e.customer_id)).dedup.length

/-- Line 215: `(customer_stats['order_count'] > 1).mean()` (NaN ↦ `none`). -/
def retention_rate (cs : List CustomerAgg) : Option ℚ :=
  if cs.length = 0 then none
  else some (((cs.filter (fun c => decide (c.order_count > 1))).length : ℚ) / (cs.length : ℚ))

/-- Revenue sum of a group of rows. -/
def sumAmounts (g : List EnrichedTxn) : ℚ := (g.map (fun e => e.total_amount)).sum

/-- Revenue mean of a (nonempty) group of rows. -/
def meanAmounts (g : List EnrichedTxn) : ℚ := sumAmounts g / (g.length : ℚ)

/-- `nunique` of the `customer_id` column of a group. -/
def nuniqueCustomers (g : List EnrichedTxn) : Nat :=
  (g.map (fun e => e.customer_id)).dedup.length

/-- `.sort_values(ascending=False)` on a keyed revenue series, modelled as a
stable descending sort by value. -/
def vge (a b : String × ℚ) : Prop := b.2 ≤ a.2

/-- Decidability of `vge`. -/
instance vgeDec : DecidableRel vge := fun a b => inferInstanceAs (Decidable (b.2 ≤ a.2))

/-- Line 195: `revenue_by_category`. -/
def revenue_by_category (df : List EnrichedTxn) : List (String × ℚ) :=
  @List.insertionSort _ vge vgeDec
    ((pdGroupBy (· ≤ ·) strLeDec (fun e => e.category) df).map
      (fun kg => (kg.1, sumAmounts kg.2)))

/-- Line 198: `revenue_by_channel`. -/
def revenue_by_channel (df : List EnrichedTxn) : List (String × ℚ) :=
  @List.insertionSort _ vge vgeDec
    ((pdGroupBy (· ≤ ·) strLeDec (fun e => e.sales_channel) df).map
      (fun kg => (kg.1, sumAmounts kg.2)))

/-- Line 201: `daily_revenue`, keyed by the calendar date of the timestamp. -/
def daily_revenue (df : List EnrichedTxn) : List ((Nat × Nat × Nat) × ℚ) :=
  (pdGroupBy tripleLe tripleLeDec
      (fun e => (e.transaction_date.year, e.transaction_date.month, e.transaction_date.day)) df).map
    (fun kg => (kg.1, sumAmounts kg.2))

/-- One row of the `top_products` table. -/
structure ProductAgg where
  product_name : String
  total_amount : ℚ
  quantity : Nat
deriving DecidableEq

/-- Descending-revenue order used by `sort_values('total_amount', ascending=False)`. -/
def rge (a b : ProductAgg) : Prop := b.total_amount ≤ a.total_amount

/-- Decidability of `rge`. -/
instance rgeDec : DecidableRel rge :=
  fun a b => inferInstanceAs (Decidable (b.total_amount ≤ a.total_amount))

instance : IsTotal ProductAgg rge := ⟨fun a b => le_total b.total_amount a.total_amount⟩

instance : IsTrans ProductAgg rge := ⟨fun _ _ _ h1 h2 => le_trans h2 h1⟩

/-- Lines 204-207 before the sort: `groupby('product_name').agg(sum, sum)`,
groups in sorted key order. -/
def product_groups (df : List EnrichedTxn) : List ProductAgg :=
  (pdGroupBy (· ≤ ·) strLeDec (fun e => e.product_name) df).map
    (fun kg => ⟨kg.1, sumAmounts kg.2, (kg.2.map (fun e => e.quantity)).sum⟩)

/-- Lines 204-207: `top_products = ... .sort_values(...).head(5)`. -/
def top_products (df : List EnrichedTxn) : List ProductAgg :=
  (@List.insertionSort _ rge rgeDec (product_groups df)).take 5

/-- First-encounter order of the `product_name` column (what a stable
tie-break by input order would have to follow). -/
def encounterOrder (df : List EnrichedTxn) : List String :=
  (df.map (fun e => e.product_name)).dedup

/-- Line 233: `hourly_sales = df_transformed.groupby('hour')['total_amount'].sum()`. -/
def hourly_sales (df : List EnrichedTxn) : List (Nat × ℚ) :=
  (pdGroupBy (· ≤ ·) natLeDec (fun e => e.hour) df).map
    (fun kg => (kg.1, sumAmounts kg.2))

/-- `Series.idxmax`: the first key attaining the maximal value; pandas raises
`ValueError` on an empty series, modelled `none`. -/
def idxmax {κ : Type} : List (κ × ℚ) → Option κ
  | [] => none
  | x :: xs => some ((xs.foldl (fun best p => if best.2 < p.2 then p else best) x).1)

/-- Line 234: `peak_hour = hourly_sales.idxmax()`. -/
def peak_hour (df : List EnrichedTxn) : Option Nat := idxmax (hourly_sales df)

/-- Line 237: the in-place `df_transformed['is_weekend'] = ...isin([...])`. -/
def addWeekend (df : List EnrichedTxn) : List EnrichedTxn :=
  df.map (fun e =>
    { e with is_weekend := some (["Saturday", "Sunday"].contains e.day_of_week) })

/-- Line 238: `weekend_performance` (sum and mean by `is_weekend`). -/
def weekend_performance (df : List EnrichedTxn) : List (Option Bool × ℚ × ℚ) :=
  (pdGroupBy obLe obLeDec (fun e => e.is_weekend) df).map
    (fun kg => (kg.1, sumAmounts kg.2, meanAmounts kg.2))

/-- Lines 244-247: `regional_performance` (sum, mean, count, nunique), `.round(2)`. -/
def regional_performance (df : List EnrichedTxn) : List (String × ℚ × ℚ × Nat × Nat) :=
  (pdGroupBy (· ≤ ·) strLeDec (fun e => e.region) df).map
    (fun kg => (kg.1, round2 (sumAmounts kg.2), round2 (meanAmounts kg.2),
      kg.2.length, nuniqueCustomers kg.2))

/-- Lines 269-274: `monthly_summary` keyed by `(year, month)`. -/
def monthly_summary (df : List EnrichedTxn) : List ((Nat × Nat) × ℚ × Nat × ℚ × Nat) :=
  (pdGroupBy pairLe pairLeDec (fun e => (e.year, e.month)) df).map
    (fun kg => (kg.1, round2 (sumAmounts kg.2), kg.2.length,
      round2 (meanAmounts kg.2), nuniqueCustomers kg.2))

/-- Lines 277-283: `category_matrix` pivot (category × sales_channel,
revenue sums, missing combinations filled with 0). -/
def category_matrix (df : List EnrichedTxn) : List (String × List (String × ℚ)) :=
  let channels := @List.insertionSort _ (· ≤ ·) strLeDec
    ((df.map (fun e => e.sales_channel)).dedup)
  (pdGroupBy (· ≤ ·) strLeDec (fun e => e.category) df).map
    (fun kg => (kg.1, channels.map (fun ch =>
      (ch, round2 (sumAmounts (kg.2.filter (fun e => decide (e.sales_channel = ch))))))))

/-- The merge of lines 286-289: each transaction picks up its customer's
segment from `customer_stats`. -/
def lookupSegment (cs : List CustomerAgg) (cid : String) : String :=
  ((cs.find? (fun c => decide (c.customer_id = cid))).map (fun c => c.segment)).getD ""

/-- Lines 286-293: `segment_analysis` (sum, mean, count, nunique by segment). -/
def segment_analysis (df : List EnrichedTxn) (cs : List CustomerAgg) :
    List (String × ℚ × ℚ × Nat × Nat) :=
  (pdGroupBy (· ≤ ·) strLeDec (fun e => lookupSegment cs e.customer_id) df).map
    (fun kg => (kg.1, round2 (sumAmounts kg.2), round2 (meanAmounts kg.2),
      kg.2.length, nuniqueCustomers kg.2))

/-! ### The full pipeline -/

/-- Line 137: `df_raw['transaction_date'] = pd.to_datetime(...)` — the
column is overwritten in place; `none` models the raised exception on an
unparseable date (fail-fast, see spec §7). -/
def to_datetime_col : List RawTxn → Option (List RawTxn)
  | [] => some []
  | r :: rs =>
    (toDatetimeCell r.transaction_date).bind fun d =>
      (to_datetime_col rs).map fun rest => { r with transaction_date := d } :: rest

/-- Lines 140-152: one row of `df_transformed = df_raw.copy()` plus the
derived feature columns (`is_weekend` is not yet present). -/
def enrichRow (r : RawTxn) : Option EnrichedTxn :=
  match r.transaction_date with
  | .str _ => none
  | .ts d => some
      { transaction_id := r.transaction_id, product_id := r.product_id,
        product_name := r.product_name, category := r.category,
        quantity := r.quantity, unit_price := r.unit_price,
        total_amount := r.total_amount, transaction_date := d,
        customer_id := r.customer_id, sales_channel := r.sales_channel,
        payment_method := r.payment_method, region := r.region,
        year := d.year, month := d.month, day := d.day, hour := d.hour,
        day_of_week := dayName d,
        revenue_category := revenue_category r.total_amount,
        is_weekend := none }

/-- Lines 140-152 over the whole frame: `df_transformed`, built row by row
(`none` propagates the impossibility of enriching an unparsed date). -/
def enrichAll : List RawTxn → Option (List EnrichedTxn)
  | [] => some []
  | r :: rs => (enrichRow r).bind fun e => (enrichAll rs).map fun rest => e :: rest

/-- Every named table and scalar the pipeline leaves behind, together with
the final (mutated) state of `df_raw` and `df_transformed`. -/
structure PipelineOutputs where
  df_raw_final : List RawTxn
  quality_report : QualityReport
  df_transformed : List EnrichedTxn
  customer_stats : List CustomerAgg
  total_revenue : ℚ
  total_transactions : Nat
  avg_order_value : Option ℚ
  unique_customers : Nat
  retention_rate : Option ℚ
  revenue_by_category : List (String × ℚ)
  revenue_by_channel : List (String × ℚ)
  daily_revenue : List ((Nat × Nat × Nat) × ℚ)
  top_products : List ProductAgg
  hourly_sales : List (Nat × ℚ)
  peak_hour : Option Nat
  weekend_performance : List (Option Bool × ℚ × ℚ)
  regional_performance : List (String × ℚ × ℚ × Nat × Nat)
  monthly_summary : List ((Nat × Nat) × ℚ × Nat × ℚ × Nat)
  category_matrix : List (String × List (String × ℚ))
  segment_analysis : List (String × ℚ × ℚ × Nat × Nat)
deriving DecidableEq

/-- The whole run, STEP 2 through STEP 6, in source order: validation on the
raw strings, the in-place date conversion, enrichment, customer aggregation,
KPIs and tables from `df_transformed`, then the in-place `is_weekend`
addition, and the remaining tables from the extended frame. -/
def runPipeline (batch : List RawTxn) : Option PipelineOutputs :=
  let qr := validate_data_quality batch
  (to_datetime_col batch).bind fun raw =>
  (enrichAll raw).map fun df3 =>
    let cs := customer_stats df3
    let df5 := addWeekend df3
    { df_raw_final := raw, quality_report := qr, df_transformed := df5,
      customer_stats := cs,
      total_revenue := total_revenue df3,
      total_transactions := total_transactions df3,
      avg_order_value := avg_order_value_kpi df3,
      unique_customers := unique_customers df3,
      retention_rate := retention_rate cs,
      revenue_by_category := revenue_by_category df3,
      revenue_by_channel := revenue_by_channel df3,
      daily_revenue := daily_revenue df3,
      top_products := top_products df3,
      hourly_sales := hourly_sales df3,
      peak_hour := peak_hour df3,
      weekend_performance := weekend_performance df5,
      regional_performance := regional_performance df5,
      monthly_summary := monthly_summary df5,
      category_matrix := category_matrix df5,
      segment_analysis := segment_analysis df5 cs }

/-! ### Spec-side restatements (used only to compare against the source) -/

/-- The spec's bucket table for `revenue_category`, transcribed from its
interval notation: (0,100]→Low, (100,500]→Medium, (500,1000]→High,
(1000,∞)→Premium. -/
def bucket_spec (x : ℚ) : Option String :=
  if 0 < x ∧ x ≤ 100 then some "Low"
  else if 100 < x ∧ x ≤ 500 then some "Medium"
  else if 500 < x ∧ x ≤ 1000 then some "High"
  else if 1000 < x then some "Premium"
  else none

/-- A rational is a whole number of cents. Every `total_amount` the system
ingests has this shape: the schema makes it a 2-decimal currency amount
(the generator rounds `actual_price * quantity` to 2 decimals). -/
def isCents (q : ℚ) : Prop := ∃ n : ℤ, q = (n : ℚ) / 100

/-! ### Concrete sample data for witnesses and counterexamples -/

/-- Forget the `transaction_date` column (used to state that the in-place
date conversion leaves every other column and the row order intact). -/
def eraseDate (r : RawTxn) : RawTxn := { r with transaction_date := .str "" }

/-- A raw transaction with representative filler values. -/
def sampleRaw (id cid pname : String) (amt : ℚ) (date : String) : RawTxn :=
  { transaction_id := id, product_id := "P1", product_name := pname,
    category := "Electronics", quantity := 1, unit_price := amt,
    total_amount := amt, transaction_date := .str date, customer_id := cid,
    sales_channel := "Online", payment_method := some "Cash", region := "North" }

/-- An enriched transaction with representative filler values
(2024-01-15 is a Monday). -/
def sampleEnriched (cid pname : String) (amt : ℚ) (hr : Nat) : EnrichedTxn :=
  { transaction_id := "T" ++ cid ++ pname, product_id := "P1",
    product_name := pname, category := "Electronics", quantity := 1,
    unit_price := amt, total_amount := amt,
    transaction_date := ⟨2024, 1, 15, hr, 0, 0⟩, customer_id := cid,
    sales_channel := "Online", payment_method := some "Cash",
    region := "North", year := 2024, month := 1, day := 15, hour := hr,
    day_of_week := "Monday", revenue_category := revenue_category amt,
    is_weekend := none }

/-- One-row raw batch whose date cell is still a string. -/
def exB5 : List RawTxn := [sampleRaw "T1" "C1" "Laptop" 50 "2024-01-15 13:45:07"]

/-- All-empty outputs record (only a `getD` fallback for naming the result
of a concrete run). -/
def defaultOutputs : PipelineOutputs :=
  { df_raw_final := [], quality_report := ⟨0, [], 100⟩, df_transformed := [],
    customer_stats := [], total_revenue := 0, total_transactions := 0,
    avg_order_value := none, unique_customers := 0, retention_rate := none,
    revenue_by_category := [], revenue_by_channel := [], daily_revenue := [],
    top_products := [], hourly_sales := [], peak_hour := none,
    weekend_performance := [], regional_performance := [],
    monthly_summary := [], category_matrix := [], segment_analysis := [] }

/-- The outputs of the concrete run on `exB5`. -/
def out5 : PipelineOutputs := (runPipeline exB5).getD defaultOutputs

/-- Two customers with cent-valued spends (witness data for conservation). -/
def exdf2 : List EnrichedTxn :=
  [sampleEnriched "C1" "Laptop" (5025 / 100) 13,
   sampleEnriched "C2" "Mouse" (6010 / 100) 14]

/-- Two products with equal revenue, product "B" encountered before "A". -/
def exdf6 : List EnrichedTxn :=
  [sampleEnriched "C1" "B" 10 13, sampleEnriched "C2" "A" 10 14]

/-- One-customer enriched batch (witness data for the aggregator). -/
def exdf9 : List EnrichedTxn := [sampleEnriched "C1" "Laptop" 50 13]

/-- The single customer aggregate produced from `exdf9`. -/
def c9row : CustomerAgg :=
  mkCustomerAgg "C1" (exdf9.filter (fun e => decide (e.customer_id = "C1")))


/-! ### Supporting lemmas -/

theorem roundHalfEven_intCast (n : ℤ) : roundHalfEven (n : ℚ) = n := by
  unfold roundHalfEven
  rw [Int.floor_intCast]
  norm_num

theorem round2_isCents {q : ℚ} (h : isCents q) : round2 q = q := by
  obtain ⟨n, rfl⟩ := h
  unfold round2
  have h1 : ((n : ℚ) / 100) * 100 = (n : ℚ) := by field_simp
  rw [h1, roundHalfEven_intCast]

theorem isCents_add {a b : ℚ} (ha : isCents a) (hb : isCents b) : isCents (a + b) := by
  obtain ⟨n, rfl⟩ := ha
  obtain ⟨m, rfl⟩ := hb
  exact ⟨n + m, by push_cast; ring⟩

theorem isCents_sum : ∀ l : List ℚ, (∀ q ∈ l, isCents q) → isCents l.sum := by
  intro l
  induction l with
  | nil => intro _; exact ⟨0, by norm_num⟩
  | cons a l ih =>
    intro h
    rw [List.sum_cons]
    exact isCents_add (h a (List.mem_cons_self a l))
      (ih fun q hq => h q (List.mem_cons_of_mem _ hq))

theorem sum_map_ite_mem {κ : Type} [DecidableEq κ] (a : κ) (c : ℚ) (g : κ → ℚ) :
    ∀ ks : List κ, ks.Nodup → a ∈ ks →
      (ks.map (fun k => if a = k then c + g k else g k)).sum = c + (ks.map g).sum := by
  intro ks
  induction ks with
  | nil => intro _ h; cases h
  | cons k ks ih =>
    intro hnd hmem
    rcases List.nodup_cons.mp hnd with ⟨hk, hnd2⟩
    rcases List.mem_cons.mp hmem with rfl | hmem2
    · have hrest : ∀ b ∈ ks, (if a = b then c + g b else g b) = g b := by
        intro b hb
        rw [if_neg]
        rintro rfl
        exact hk hb
      rw [List.map_cons, List.sum_cons, if_pos rfl, List.map_congr_left hrest,
        List.map_cons, List.sum_cons]
      ring
    · have hne : a ≠ k := by rintro rfl; exact hk hmem2
      rw [List.map_cons, List.sum_cons, if_neg hne, ih hnd2 hmem2,
        List.map_cons, List.sum_cons]
      ring

theorem sum_over_keys {α κ : Type} [DecidableEq κ] (keyOf : α → κ) (f : α → ℚ) :
    ∀ (l : List α) (ks : List κ), ks.Nodup → (∀ x ∈ l, keyOf x ∈ ks) →
      (ks.map (fun k => ((l.filter (fun x => decide (keyOf x = k))).map f).sum)).sum
        = (l.map f).sum := by
  intro l
  induction l with
  | nil => intro ks _ _; simp
  | cons x l ih =>
    intro ks hnd hcov
    have hx : keyOf x ∈ ks := hcov x (List.mem_cons_self x l)
    have hstep : ∀ k ∈ ks,
        (((x :: l).filter (fun y => decide (keyOf y = k))).map f).sum
          = if keyOf x = k
            then f x + ((l.filter (fun y => decide (keyOf y = k))).map f).sum
            else ((l.filter (fun y => decide (keyOf y = k))).map f).sum := by
      intro k _
      by_cases h : keyOf x = k
      · simp [List.filter_cons, h]
      · simp [List.filter_cons, h]
    rw [List.map_congr_left hstep, sum_map_ite_mem (keyOf x) (f x) _ ks hnd hx,
      ih ks hnd (fun y hy => hcov y (List.mem_cons_of_mem _ hy)),
      List.map_cons, List.sum_cons]

/-! ### Claim theorems -/

/-- C1: on the empty batch the pipeline's scalar KPIs are the degenerate
zeros, every grouped table is empty, the quality report is clean, the
averages are NaN (`some none`, no exception) — but `peak_hour` is
`some none`: `hourly_sales.idxmax()` has no value on an empty series, the
point where the actual code raises `ValueError` instead of returning the
spec-required degenerate "no peak hour" result. -/
theorem C1_empty_batch_behaviour :
    (runPipeline []).map (fun o => o.total_revenue) = some 0 ∧
    (runPipeline []).map (fun o => o.unique_customers) = some 0 ∧
    (runPipeline []).map (fun o => o.total_transactions) = some 0 ∧
    (runPipeline []).map (fun o => o.avg_order_value) = some none ∧
    (runPipeline []).map (fun o => o.retention_rate) = some none ∧
    (runPipeline []).map (fun o => o.customer_stats) = some [] ∧
    (runPipeline []).map (fun o => o.revenue_by_category) = some [] ∧
    (runPipeline []).map (fun o => o.revenue_by_channel) = some [] ∧
    (runPipeline []).map (fun o => o.daily_revenue) = some [] ∧
    (runPipeline []).map (fun o => o.top_products) = some [] ∧
    (runPipeline []).map (fun o => o.hourly_sales) = some [] ∧
    (runPipeline []).map (fun o => o.weekend_performance) = some [] ∧
    (runPipeline []).map (fun o => o.regional_performance) = some [] ∧
    (runPipeline []).map (fun o => o.monthly_summary) = some [] ∧
    (runPipeline []).map (fun o => o.category_matrix) = some [] ∧
    (runPipeline []).map (fun o => o.segment_analysis) = some [] ∧
    (runPipeline []).map (fun o => o.quality_report) = some ⟨0, [], 100⟩ ∧
    (runPipeline []).map (fun o => o.peak_hour) = some none :=
  ⟨rfl, rfl, rfl, rfl, rfl, rfl, rfl, rfl, rfl, rfl, rfl, rfl, rfl, rfl, rfl, rfl,
   rfl, rfl⟩

/-- C2: the sum over all customer aggregates of (2-decimal-rounded)
`total_spent` equals `total_revenue` summed directly over the batch, for
every batch of schema-conforming (whole-cent) amounts: a per-customer sum
of cent amounts is itself a cent amount, so the `.round(2)` is the
identity, and the groups partition the batch. -/
theorem C2_aggregate_conservation :
    ∀ df : List EnrichedTxn, (∀ e ∈ df, isCents e.total_amount) →
      ((customer_stats df).map (fun c => c.total_spent)).sum = total_revenue df := by
  intro df h
  have hnd : (@List.insertionSort String (· ≤ ·) strLeDec
      ((df.map (fun e => e.customer_id)).dedup)).Nodup :=
    ((List.perm_insertionSort _ _).nodup_iff).mpr (List.nodup_dedup _)
  have hcov : ∀ e ∈ df, e.customer_id ∈ @List.insertionSort String (· ≤ ·) strLeDec
      ((df.map (fun e => e.customer_id)).dedup) := by
    intro e he
    exact (List.mem_insertionSort _).mpr (List.mem_dedup.mpr (List.mem_map_of_mem _ he))
  have hts : ∀ k ∈ @List.insertionSort String (· ≤ ·) strLeDec
      ((df.map (fun e => e.customer_id)).dedup),
      (mkCustomerAgg k (df.filter (fun x => decide (x.customer_id = k)))).total_spent
        = ((df.filter (fun x => decide (x.customer_id = k))).map
            (fun e => e.total_amount)).sum := by
    intro k _
    simp only [mkCustomerAgg]
    apply round2_isCents
    apply isCents_sum
    intro q hq
    obtain ⟨e, he, rfl⟩ := List.mem_map.mp hq
    exact h e (List.mem_of_mem_filter he)
  unfold total_revenue customer_stats pdGroupBy
  rw [List.map_map, List.map_map]
  exact Eq.trans (congrArg List.sum (List.map_congr_left hts))
    (sum_over_keys (fun e => e.customer_id) (fun e => e.total_amount) df _ hnd hcov)

/-- C2 witness: conservation evaluated on a concrete two-customer batch. -/
theorem C2_aggregate_conservation_witness :
    ((customer_stats exdf2).map (fun c => c.total_spent)).sum = total_revenue exdf2 := by
  apply C2_aggregate_conservation
  intro e he
  simp only [exdf2, List.mem_cons, List.not_mem_nil, or_false] at he
  rcases he with rfl | rfl
  · exact ⟨5025, by norm_num [sampleEnriched]⟩
  · exact ⟨6010, by norm_num [sampleEnriched]⟩

/-- C3: segment classification is the spec's first-match-wins priority list
over (total_spent, order_count), and the three boundary cases come out as
the spec says. -/
theorem C3_segment_classification :
    (∀ (ts : ℚ) (oc : Nat), categorize_customer ts oc = segment_spec ts oc) ∧
    categorize_customer 2001 11 = "VIP" ∧
    categorize_customer 2000 11 = "Regular" ∧
    categorize_customer 500 1 = "New" := by
  refine ⟨fun ts oc => ?_, ?_, ?_, ?_⟩
  · by_cases h1 : ts > 2000 <;> by_cases h2 : oc > 10 <;>
      by_cases h3 : ts > 1000 <;> by_cases h4 : oc > 5 <;>
      simp [categorize_customer, segment_spec, firstMatch, h1, h2, h3, h4]
  · norm_num [categorize_customer]
  · norm_num [categorize_customer]
  · norm_num [categorize_customer]

/-- C4: `pd.cut` with bins [0,100,500,1000,inf] realises exactly the spec's
half-open right-inclusive buckets, and the three boundary examples land in
Low / Medium / Premium. -/
theorem C4_revenue_buckets :
    (∀ x : ℚ, revenue_category x = bucket_spec x) ∧
    revenue_category 100 = some "Low" ∧
    revenue_category (100.01 : ℚ) = some "Medium" ∧
    revenue_category 1000000 = some "Premium" := by
  have h : ∀ x : ℚ, revenue_category x = bucket_spec x := by
    intro x
    simp only [revenue_category, pdCut, bucket_spec, WithTop.coe_lt_coe,
      WithTop.coe_le_coe, le_top, and_true, WithTop.coe_lt_top]
  refine ⟨h, ?_, ?_, ?_⟩
  · rw [h]; norm_num [bucket_spec]
  · rw [h]; norm_num [bucket_spec]
  · rw [h]; norm_num [bucket_spec]

/-- C8: the whole run is a pure function of the input batch — two runs on
equal batches produce equal outputs (there is no other input). -/
theorem C8_determinism :
    ∀ b1 b2 : List RawTxn, b1 = b2 → runPipeline b1 = runPipeline b2 := by
  intro b1 b2 h
  rw [h]

/-- C8 witness: the two runs agree on a concrete batch. -/
theorem C8_determinism_witness : runPipeline exB5 = runPipeline exB5 :=
  C8_determinism exB5 exB5 rfl

/-- C9: every customer aggregate comes from a nonempty group, so its
`order_count` is positive and `avg_order_value` is the (rounded) quotient
`total_spent / order_count` — the division-by-zero branch is unreachable. -/
theorem C9_avg_order_value_welldefined :
    ∀ (df : List EnrichedTxn) (c : CustomerAgg), c ∈ customer_stats df →
      0 < c.order_count ∧
      c.avg_order_value = round2 (c.total_spent / (c.order_count : ℚ)) := by
  intro df c hc
  rw [customer_stats] at hc
  obtain ⟨kg, hkg, rfl⟩ := List.mem_map.mp hc
  rw [pdGroupBy] at hkg
  obtain ⟨k, hk, rfl⟩ := List.mem_map.mp hkg
  have hk2 := List.mem_dedup.mp ((List.mem_insertionSort _).mp hk)
  obtain ⟨x, hx, rfl⟩ := List.mem_map.mp hk2
  have hxf : x ∈ df.filter (fun y => decide (y.customer_id = x.customer_id)) :=
    List.mem_filter.mpr ⟨hx, decide_eq_true rfl⟩
  constructor
  · simpa only [mkCustomerAgg] using List.length_pos_of_mem hxf
  · simp only [mkCustomerAgg]

set_option maxRecDepth 10000 in
/-- C9 witness: the aggregate of the one-customer batch `exdf9`. -/
theorem C9_avg_order_value_welldefined_witness :
    0 < c9row.order_count ∧
    c9row.avg_order_value = round2 (c9row.total_spent / (c9row.order_count : ℚ)) :=
  C9_avg_order_value_welldefined exdf9 c9row (by with_unfolding_all decide)

/-- C10: the health score is 100 minus at most the three one-shot
penalties 10, 15 and 20, so it always lies in an eight-value set bounded
below by 55 — it can never go below zero. -/
theorem C10_score_floor : ∀ df : List RawTxn,
    (validate_data_quality df).data_health_score
        ∈ ([100, 90, 85, 80, 75, 70, 65, 55] : List ℤ) ∧
    55 ≤ (validate_data_quality df).data_health_score := by
  intro df
  simp only [validate_data_quality]
  split_ifs <;> norm_num


theorem toDatetimeCell_isTs {c d : DateField} (h : toDatetimeCell c = some d) :
    d.isTs = true := by
  cases c with
  | str s =>
    cases hp : parseDate s with
    | none => rw [toDatetimeCell, hp] at h; cases h
    | some dt =>
      rw [toDatetimeCell, hp] at h
      simp only [Option.map_some'] at h
      cases h
      rfl
  | ts dt =>
    rw [toDatetimeCell] at h
    cases h
    rfl

theorem to_datetime_col_shape :
    ∀ (b raw2 : List RawTxn), to_datetime_col b = some raw2 →
      raw2.map eraseDate = b.map eraseDate ∧
      ∀ r ∈ raw2, r.transaction_date.isTs = true := by
  intro b
  induction b with
  | nil =>
    intro raw2 h
    rw [to_datetime_col] at h
    cases h
    exact ⟨rfl, fun r hr => absurd hr (List.not_mem_nil r)⟩
  | cons r rs ih =>
    intro raw2 h
    rw [to_datetime_col] at h
    cases hc : toDatetimeCell r.transaction_date with
    | none => rw [hc] at h; cases h
    | some d =>
      rw [hc] at h
      simp only [Option.some_bind] at h
      cases hrec : to_datetime_col rs with
      | none => rw [hrec] at h; cases h
      | some rest =>
        rw [hrec] at h
        simp only [Option.map_some'] at h
        cases h
        obtain ⟨h1, h2⟩ := ih rest hrec
        refine ⟨?_, ?_⟩
        · rw [List.map_cons, List.map_cons, h1]
          rfl
        · intro x hx
          rcases List.mem_cons.mp hx with rfl | hx2
          · exact toDatetimeCell_isTs hc
          · exact h2 x hx2

set_option maxRecDepth 10000 in
/-- C5 counterexample: on a concrete one-row batch the run succeeds but the
final `df_raw` differs from the input — the ETL stage mutated the raw
batch in place (string date became a parsed timestamp). -/
theorem C5_counterexample_raw_batch_mutated :
    (runPipeline exB5).isSome = true ∧
    (runPipeline exB5).map (fun o => o.df_raw_final) ≠ some exB5 := by
  with_unfolding_all decide

/-- C5 amended: whenever the run completes, the raw batch keeps its row
order and every column except `transaction_date`, but that column has been
overwritten in place with parsed timestamps, and the analytics step has
added the `is_weekend` column to `df_transformed` in place. -/
theorem C5_amended_only_date_column_rewritten :
    ∀ (b : List RawTxn) (out : PipelineOutputs), runPipeline b = some out →
      out.df_raw_final.map eraseDate = b.map eraseDate ∧
      (∀ r ∈ out.df_raw_final, r.transaction_date.isTs = true) ∧
      (∀ e ∈ out.df_transformed, e.is_weekend.isSome = true) := by
  intro b out h
  rw [runPipeline] at h
  cases htc : to_datetime_col b with
  | none => rw [htc] at h; cases h
  | some raw =>
    rw [htc] at h
    simp only [Option.some_bind] at h
    cases hen : enrichAll raw with
    | none => rw [hen] at h; cases h
    | some df3 =>
      rw [hen] at h
      simp only [Option.map_some'] at h
      cases h
      obtain ⟨h1, h2⟩ := to_datetime_col_shape b raw htc
      refine ⟨h1, h2, ?_⟩
      intro e he
      obtain ⟨e0, he0, rfl⟩ := List.mem_map.mp he
      rfl

set_option maxRecDepth 10000 in
/-- C5 amended witness: the amended statement evaluated on `exB5`. -/
theorem C5_amended_only_date_column_rewritten_witness :
    out5.df_raw_final.map eraseDate = exB5.map eraseDate ∧
    (∀ r ∈ out5.df_raw_final, r.transaction_date.isTs = true) ∧
    (∀ e ∈ out5.df_transformed, e.is_weekend.isSome = true) :=
  C5_amended_only_date_column_rewritten exB5 out5 (by with_unfolding_all decide)


open scoped List

theorem mem_mem_sublist_or {α : Type} {x y : α} :
    ∀ {l : List α}, x ∈ l → y ∈ l → x ≠ y → [x, y] <+ l ∨ [y, x] <+ l := by
  intro l
  induction l with
  | nil => intro hx; cases hx
  | cons a t ih =>
    intro hx hy hne
    rcases List.mem_cons.mp hx with rfl | hx2
    · rcases List.mem_cons.mp hy with rfl | hy2
      · exact absurd rfl hne
      · exact Or.inl (List.Sublist.cons₂ _ (List.singleton_sublist.mpr hy2))
    · rcases List.mem_cons.mp hy with rfl | hy2
      · exact Or.inr (List.Sublist.cons₂ _ (List.singleton_sublist.mpr hx2))
      · rcases ih hx2 hy2 hne with h | h
        · exact Or.inl (h.cons a)
        · exact Or.inr (h.cons a)

theorem pair_sublist_antisymm {α : Type} :
    ∀ {l : List α} {x y : α}, l.Nodup → [x, y] <+ l → [y, x] <+ l → x = y := by
  intro l
  induction l with
  | nil =>
    intro x y _ h1 _
    simp at h1
  | cons a t ih =>
    intro x y hnd h1 h2
    rcases List.nodup_cons.mp hnd with ⟨ha, hnd2⟩
    cases h1 with
    | cons _ h1b =>
      cases h2 with
      | cons _ h2b => exact ih hnd2 h1b h2b
      | cons₂ _ h2b =>
        exact absurd (h1b.subset (List.mem_cons_of_mem _ (List.mem_singleton.mpr rfl))) ha
    | cons₂ _ h1b =>
      cases h2 with
      | cons _ h2b =>
        exact absurd (h2b.subset (List.mem_cons_of_mem _ (List.mem_singleton.mpr rfl))) ha
      | cons₂ _ h2b => rfl

theorem product_groups_name_sorted (df : List EnrichedTxn) :
    (product_groups df).Pairwise (fun a b => a.product_name < b.product_name) := by
  have hs : (@List.insertionSort String (· ≤ ·) strLeDec
      ((df.map (fun e => e.product_name)).dedup)).Sorted (· ≤ ·) :=
    List.sorted_insertionSort _ _
  have hnd : (@List.insertionSort String (· ≤ ·) strLeDec
      ((df.map (fun e => e.product_name)).dedup)).Nodup :=
    ((List.perm_insertionSort _ _).nodup_iff).mpr (List.nodup_dedup _)
  have hlt := hs.lt_of_le hnd
  unfold product_groups pdGroupBy
  rw [List.map_map, List.pairwise_map]
  exact hlt

theorem product_groups_nodup (df : List EnrichedTxn) : (product_groups df).Nodup :=
  (product_groups_name_sorted df).imp
    (fun h he => absurd (he ▸ h) (lt_irrefl _))

set_option maxRecDepth 10000 in
/-- C6 counterexample: two products with equal revenue, "B" encountered
first in the batch; `top_products` nevertheless lists "A" before "B" — the
`groupby` sorts the product keys alphabetically before the revenue sort,
so ties do not follow input encounter order. -/
theorem C6_counterexample_tie_not_encounter_order :
    (top_products exdf6).map (fun p => p.product_name) = ["A", "B"] ∧
    (top_products exdf6).map (fun p => p.total_amount) = [10, 10] ∧
    encounterOrder exdf6 = ["B", "A"] := by
  with_unfolding_all decide

/-- C6 amended: `top_products` lists the (at most) five products with the
greatest revenue in descending revenue order; among equal-revenue products
the order is alphabetical by `product_name` (the `groupby` key order
preserved by the stable revenue sort), not input encounter order. -/
theorem C6_amended_top_products_order :
    ∀ df : List EnrichedTxn,
      ((top_products df).Pairwise (fun a b => b.total_amount ≤ a.total_amount ∧
        (a.total_amount = b.total_amount → a.product_name < b.product_name))) ∧
      (∀ b ∈ product_groups df, b ∉ top_products df →
        ∀ a ∈ top_products df, b.total_amount ≤ a.total_amount) := by
  intro df
  have hP := product_groups_name_sorted df
  have hPnd := product_groups_nodup df
  have hSort : (@List.insertionSort _ rge rgeDec (product_groups df)).Pairwise rge :=
    List.sorted_insertionSort rge (product_groups df)
  have hperm : @List.insertionSort _ rge rgeDec (product_groups df) ~ product_groups df :=
    List.perm_insertionSort rge (product_groups df)
  have hSnd : (@List.insertionSort _ rge rgeDec (product_groups df)).Nodup :=
    hperm.nodup_iff.mpr hPnd
  have hTie : (@List.insertionSort _ rge rgeDec (product_groups df)).Pairwise
      (fun a b => a.total_amount = b.total_amount → a.product_name < b.product_name) := by
    rw [List.pairwise_iff_forall_sublist]
    intro a b hab
    intro heq
    have hne : a ≠ b := by
      rintro rfl
      exact (List.nodup_iff_sublist.mp hSnd a) hab
    have haP : a ∈ product_groups df :=
      hperm.mem_iff.mp (hab.subset (List.mem_cons_self _ _))
    have hbP : b ∈ product_groups df :=
      hperm.mem_iff.mp (hab.subset (List.mem_cons_of_mem _ (List.mem_singleton.mpr rfl)))
    rcases mem_mem_sublist_or haP hbP hne with h1 | h2
    · exact List.pairwise_iff_forall_sublist.mp hP h1
    · have hba : [b, a] <+ @List.insertionSort _ rge rgeDec (product_groups df) :=
        List.sublist_insertionSort (List.pairwise_pair.mpr (le_of_eq heq)) h2
      exact absurd (pair_sublist_antisymm hSnd hab hba) hne
  constructor
  · exact List.Pairwise.sublist (List.take_sublist 5 _) (hSort.and hTie)
  · intro b hb hbn a ha
    have hbS : b ∈ @List.insertionSort _ rge rgeDec (product_groups df) :=
      hperm.mem_iff.mpr hb
    have hsplit := List.take_append_drop 5 (@List.insertionSort _ rge rgeDec (product_groups df))
    have hSort2 : ((@List.insertionSort _ rge rgeDec (product_groups df)).take 5 ++
        (@List.insertionSort _ rge rgeDec (product_groups df)).drop 5).Pairwise rge := by
      rw [hsplit]
      exact hSort
    have hbS2 : b ∈ (@List.insertionSort _ rge rgeDec (product_groups df)).take 5 ++
        (@List.insertionSort _ rge rgeDec (product_groups df)).drop 5 := by
      rw [hsplit]
      exact hbS
    have hbd : b ∈ (@List.insertionSort _ rge rgeDec (product_groups df)).drop 5 := by
      rcases List.mem_append.mp hbS2 with h | h
      · exact absurd h hbn
      · exact h
    exact (List.pairwise_append.mp hSort2).2.2 a ha b hbd


theorem countMissing_pos_iff (df : List RawTxn) :
    0 < countMissing df ↔ ∃ r ∈ df, r.payment_method = none := by
  unfold countMissing
  rw [List.length_pos_iff_exists_mem]
  constructor
  · rintro ⟨r, hr⟩
    rcases List.mem_filter.mp hr with ⟨h1, h2⟩
    exact ⟨r, h1, Option.isNone_iff_eq_none.mp h2⟩
  · rintro ⟨r, h1, h2⟩
    exact ⟨r, List.mem_filter.mpr ⟨h1, Option.isNone_iff_eq_none.mpr h2⟩⟩

theorem dupIdCount_pos_iff (df : List RawTxn) :
    0 < dupIdCount df ↔ ¬ (df.map (fun r => r.transaction_id)).Nodup := by
  unfold dupIdCount
  constructor
  · intro h hnd
    rw [List.dedup_eq_self.mpr hnd] at h
    omega
  · intro hnd
    have hsub : (df.map (fun r => r.transaction_id)).dedup
        <+ df.map (fun r => r.transaction_id) := List.dedup_sublist _
    have hne : (df.map (fun r => r.transaction_id)).dedup
        ≠ df.map (fun r => r.transaction_id) :=
      fun he => hnd (he ▸ List.nodup_dedup _)
    have hlt := lt_of_le_of_ne hsub.length_le (fun he => hne (hsub.eq_of_length he))
    omega

theorem nonposPriceCount_pos_iff (df : List RawTxn) :
    0 < nonposPriceCount df ↔ ∃ r ∈ df, r.unit_price ≤ 0 := by
  unfold nonposPriceCount
  rw [List.length_pos_iff_exists_mem]
  constructor
  · rintro ⟨r, hr⟩
    rcases List.mem_filter.mp hr with ⟨h1, h2⟩
    exact ⟨r, h1, of_decide_eq_true h2⟩
  · rintro ⟨r, h1, h2⟩
    exact ⟨r, List.mem_filter.mpr ⟨h1, decide_eq_true h2⟩⟩

/-- C7: the health score equals 100 minus the sum of the one-shot
penalties of the triggered categories — 10 if any cell is missing, 15 if
any `transaction_id` repeats, 20 if any `unit_price` is non-positive —
each applied once however many records are affected, each check depending
only on its own predicate; one issue line is logged per triggered
category, and `total_records` is the row count. -/
theorem C7_health_score : ∀ df : List RawTxn,
    (validate_data_quality df).total_records = df.length ∧
    (validate_data_quality df).issues_found.length =
      (if ∃ r ∈ df, r.payment_method = none then 1 else 0)
        + (if ¬ (df.map (fun r => r.transaction_id)).Nodup then 1 else 0)
        + (if ∃ r ∈ df, r.unit_price ≤ 0 then 1 else 0) ∧
    (validate_data_quality df).data_health_score =
      100 - (if ∃ r ∈ df, r.payment_method = none then 10 else 0)
          - (if ¬ (df.map (fun r => r.transaction_id)).Nodup then 15 else 0)
          - (if ∃ r ∈ df, r.unit_price ≤ 0 then 20 else 0) := by
  intro df
  have e1 : (∃ r ∈ df, r.payment_method = none) = (0 < countMissing df) :=
    propext (countMissing_pos_iff df).symm
  have e2 : (¬ (df.map (fun r => r.transaction_id)).Nodup) = (0 < dupIdCount df) :=
    propext (dupIdCount_pos_iff df).symm
  have e3 : (∃ r ∈ df, r.unit_price ≤ 0) = (0 < nonposPriceCount df) :=
    propext (nonposPriceCount_pos_iff df).symm
  simp only [e1, e2, e3]
  simp only [validate_data_quality, gt_iff_lt]
  refine ⟨by split_ifs <;> rfl, ?_, ?_⟩
  · split_ifs <;> simp
  · split_ifs <;> norm_num

end SalesPipeline
